import Mathlib

/-!
Shallow embedding of the `sync` repository core: the Switch/Status boolean
primitive (src/status.py), the liveness-aware Queue (src/queues.py), the
Thread lifecycle (src/threads.py), the Producer/Pipeline stage loops
(src/operations.py) and the Task/Stack scheduler (src/queue.py).

Python exceptions are modelled with `Except`; machine state that a method
mutates is passed and returned explicitly.  Attribute lookups that the
source performs on names that may not exist are modelled against the exact
set of attribute names the corresponding `__init__` (plus class body)
defines, so that the AttributeError behaviour of the source is reproduced
rather than idealised away.
-/

namespace Sync

/-- A Python exception value, identified by its kind tag. -/
inductive Exc where
  | mk (kind : String)
  deriving DecidableEq, Repr

/-- Exceptions that the embedded methods raise directly:
`AttributeError` (missing attribute name recorded), `queue.Empty`
(blocking get timed out) and `ValueError` (stdlib `task_done` called
too many times). -/
inductive PyErr where
  | attributeError (attrName : String)
  | empty
  | valueError
  deriving DecidableEq, Repr

/-- Conversion of a raised `PyErr` into the generic exception value that
propagates out of a method body. -/
def PyErr.toExc : PyErr → Exc
  | .attributeError n => Exc.mk ("AttributeError:" ++ n)
  | .empty => Exc.mk "Empty"
  | .valueError => Exc.mk "ValueError"

/-- `status.Switch`: one mutable boolean cell plus the two
`threading.Event` flags `__on` and `__off` (armed when the state is
true resp. false).  The mutex serialises `set`; in this sequential
embedding `set` is an atomic state transformer. -/
structure Switch where
  state : Bool
  onEv : Bool
  offEv : Bool
  deriving DecidableEq, Repr

/-- `Switch.set(state)`: store the state and arm/clear the two events. -/
def Switch.set (_ : Switch) (b : Bool) : Switch :=
  { state := b, onEv := b, offEv := !b }

/-- `Switch.__init__(state)`: asserts a bool and calls `set(state)`. -/
def Switch.start (b : Bool) : Switch :=
  Switch.set { state := b, onEv := false, offEv := false } b

/-- `status.Status`: a named boolean view `(name, switch, position)` over a
shared switch.  The switch is shared state, so it is passed separately. -/
structure Status where
  sname : String
  position : Bool
  deriving DecidableEq, Repr

/-- `Status.__bool__`: `bool(self.__position) is bool(self.__switch)`. -/
def Status.toBool (st : Status) (sw : Switch) : Bool :=
  st.position == sw.state

/-- `Status.__call__(state)`: `self.__switch(self.__position is state)`. -/
def Status.call (st : Status) (b : Bool) (sw : Switch) : Switch :=
  Switch.set sw (st.position == b)

/-- `Status.divergent(name)`: same switch, opposite position. -/
def Status.divergent (st : Status) (n : String) : Status :=
  { sname := n, position := !st.position }

/-- `Status.convergent(name)`: same switch, same position. -/
def Status.convergent (st : Status) (n : String) : Status :=
  { sname := n, position := st.position }

/-- `queues.Queue` instance state: the stdlib FIFO (front of the list is
the next item out), the `_Queue__sources` list written by `__init__`
(a Python *list*, not a set), the `_Queue__timeout` slot, and the stdlib
`unfinished_tasks` counter that `put`/`task_done`/`join` maintain.
`α` is the item type, `σ` the type of registered sources. -/
structure Queue (α : Type) (σ : Type) where
  qname : String
  qtimeout : Int
  fifo : List α
  qsources : List σ
  unfinished : Nat
  deriving DecidableEq, Repr

/-- The attribute names reachable on a `queues.Queue` instance: the
name-mangled instance slots written by `__init__`, the methods and
properties of the class body, and the public stdlib `queue.Queue`
population.  There is no attribute named `timeout` (the `__timeout`
slot is name-mangled to `_Queue__timeout` and no property exposes it). -/
def queueAttrNames : List String :=
  ["_Queue__name", "_Queue__timeout", "_Queue__sources",
   "done", "get", "put", "register", "unregister", "name", "sources",
   "empty", "full", "qsize", "task_done", "join",
   "put_nowait", "get_nowait", "mutex", "queue", "unfinished_tasks"]

/-- The methods of a Python `list` object: `add` and `discard` (which are
`set` methods) are not among them. -/
def pyListMethods : List String :=
  ["append", "extend", "insert", "remove", "pop", "clear",
   "index", "count", "sort", "reverse", "copy"]

/-- `Queue.__bool__` given the liveness of each source:
`sources = any([bool(source) for source in self.sources]);
return not bool(self.empty()) or bool(sources)`. -/
def Queue.toBool (q : Queue α σ) (live : σ → Bool) : Bool :=
  let srcs := q.qsources.any live
  (!q.fifo.isEmpty) || srcs

/-- `Queue.get`: `super().get(timeout=self.timeout)`.  The keyword argument
`self.timeout` is evaluated first; `timeout` is not an attribute of the
instance or its classes, so the call raises AttributeError before the
stdlib get runs.  Were the attribute present, the stdlib get would pop the
front item (or raise `queue.Empty` on timeout), but the method body has no
return statement, so the caller would receive `None` (modelled `none`). -/
def Queue.get (q : Queue α σ) : Except PyErr (Option α × Queue α σ) :=
  if queueAttrNames.contains "timeout" then
    match q.fifo with
    | [] => .error .empty
    | _ :: rest => .ok (none, { q with fifo := rest })
  else .error (.attributeError "timeout")

/-- `Queue.put(content)`: `super().put(content)` — append to the FIFO and
increment the stdlib unfinished-task counter. -/
def Queue.put (q : Queue α σ) (a : α) : Queue α σ :=
  { q with fifo := q.fifo ++ [a], unfinished := q.unfinished + 1 }

/-- `Queue.done`: `super().task_done()` — decrement the unfinished-task
counter, raising ValueError when it is already zero (stdlib semantics). -/
def Queue.done (q : Queue α σ) : Except PyErr (Queue α σ) :=
  if q.unfinished = 0 then .error .valueError
  else .ok { q with unfinished := q.unfinished - 1 }

/-- `Queue.register(source)`: `self.sources.add(source)`.  `self.sources`
is a list; `add` is not a list method, so the lookup raises
AttributeError.  Were it a set, the source would be added. -/
def Queue.register (q : Queue α σ) (s : σ) : Except PyErr (Queue α σ) :=
  if pyListMethods.contains "add" then
    .ok { q with qsources := q.qsources ++ [s] }
  else .error (.attributeError "add")

/-- `Queue.unregister(source)`: `self.sources.discard(source)` — same
failure, `discard` is a set method, not a list method. -/
def Queue.unregister [DecidableEq σ] (q : Queue α σ) (s : σ) :
    Except PyErr (Queue α σ) :=
  if pyListMethods.contains "discard" then
    .ok { q with qsources := q.qsources.erase s }
  else .error (.attributeError "discard")

/-- The possible terminations of one call of a stage body `process(...)`:
it returns normally (the value is `None`), or it raises an exception. -/
inductive Outcome where
  | normal
  | raised (e : Exc)
  deriving DecidableEq, Repr

/-- Whether an exception is an instance of one of the recognized failure
kinds of the stage class (`except self.__failures as failure`). -/
def recognizedExc (fs : List String) : Exc → Bool
  | Exc.mk k => fs.contains k

/-- `threads.Thread` per-instance state relevant to `run`: the recognized
failure kinds collected by `__init_subclass__`, the `__failure`/`__error`
capture slots, and the switch shared by the Running/Idle divergent pair
(`self.__running = Status("Running", False)`,
`self.__idle = self.__running.divergent("Idle")`). -/
structure ThreadState where
  failures : List String
  failureCaptured : Option Exc
  errorCaptured : Option Exc
  runSwitch : Switch
  deriving DecidableEq, Repr

/-- The Running view: built by `Status("Running", False)`, whose indirect
construction makes a fresh `Switch(False)` and leaves the default
position True. -/
def runningStatus : Status := { sname := "Running", position := true }

/-- The Idle view: `self.__running.divergent("Idle")`. -/
def idleStatus : Status := runningStatus.divergent "Idle"

/-- A Thread as `__init__` leaves it: no failure or error captured,
running switch fresh at `Switch(False)`. -/
def ThreadState.fresh (fs : List String) : ThreadState :=
  { failures := fs, failureCaptured := none, errorCaptured := none,
    runSwitch := Switch.start false }

/-- `Thread.run`: sets Running true, runs `process`, captures a raised
recognized failure on `__failure`, captures any other raised exception
(`except BaseException`) on `__error`, and in the `finally` clause sets
Idle true.  Every Python exception is a `BaseException`, so `run` always
returns normally: the embedding is a total function on the outcome. -/
def ThreadState.run (t : ThreadState) (proc : Outcome) : ThreadState :=
  let t1 := { t with runSwitch := runningStatus.call true t.runSwitch }
  let t2 :=
    match proc with
    | .normal => t1
    | .raised e =>
        if recognizedExc t1.failures e then { t1 with failureCaptured := some e }
        else { t1 with errorCaptured := some e }
  { t2 with runSwitch := idleStatus.call true t2.runSwitch }

/-- One observable action a stage performs on its destination queue.
`closeMark` stands for the marking of a destination Closed status — the
vocabulary the specification uses; the operations in src/operations.py
only ever construct `put`. -/
inductive DestOp (β : Type) where
  | put (b : β)
  | closeMark
  deriving DecidableEq, Repr

/-- The number of Closed-markings in a destination trace. -/
def closeMarks : List (DestOp β) → Nat
  | [] => 0
  | DestOp.closeMark :: rest => closeMarks rest + 1
  | DestOp.put _ :: rest => closeMarks rest

/-- One run of the generator returned by a stage's `execute`: the items it
yields in order, then either exhaustion (`none`) or a raised exception. -/
structure GenRun (β : Type) where
  yielded : List β
  fate : Option Exc
  deriving DecidableEq, Repr

/-- `operations.Producer.process`: iterate the generator, `put` each
yielded item on the destination; a raised exception propagates after the
earlier puts.  Result: the trace of destination operations and the
exception (if any) escaping `process`.  No Closed marking appears
anywhere in the body. -/
def Producer.processTrace (g : GenRun β) : List (DestOp β) × Option Exc :=
  (g.yielded.map DestOp.put, g.fate)

/-- The termination of `Producer.process` as seen by `Thread.run`. -/
def Producer.processOutcome (g : GenRun β) : Outcome :=
  match g.fate with
  | none => .normal
  | some e => .raised e

/-- `operations.Pipeline.process`, fuel-bounded (the Python `while` can
spin on `queue.Empty` indefinitely; fuel 0 models the loop still
spinning).  Each iteration: if the source is live, `source.get()` —
which raises AttributeError (see `Queue.get`), an exception the
`except queue.Empty` clause does not catch, so it escapes; the remaining
branches transcribe what the body would do were `get` functional:
run `execute`, put each yielded item, `source.done()`, looping, with a
raised `queue.Empty` from any point of the body caught and retried. -/
def Pipeline.processGo (live : σ → Bool) (execute : Option α → GenRun β) :
    Nat → Queue α σ → List (DestOp β) → List (DestOp β) × Option Exc
  | 0, _, acc => (acc, none)
  | fuel + 1, src, acc =>
    if src.toBool live then
      match src.get with
      | .error .empty => Pipeline.processGo live execute fuel src acc
      | .error err => (acc, some err.toExc)
      | .ok (content, src2) =>
          let g := execute content
          let acc2 := acc ++ g.yielded.map DestOp.put
          match g.fate with
          | some e =>
              if e = Exc.mk "Empty" then Pipeline.processGo live execute fuel src2 acc2
              else (acc2, some e)
          | none =>
              match src2.done with
              | .error err2 => (acc2, some err2.toExc)
              | .ok src3 => Pipeline.processGo live execute fuel src3 acc2
    else (acc, none)

/-- `Pipeline.process` from the initial empty destination trace. -/
def Pipeline.processTrace (live : σ → Bool) (execute : Option α → GenRun β)
    (fuel : Nat) (src : Queue α σ) : List (DestOp β) × Option Exc :=
  Pipeline.processGo live execute fuel src []

/-- The events a `join()` call waits on, in order.  `threadFinish` is
`threading.Thread.join` (the stage's own execution); `queueTasks q` is
`queue.Queue.join` on the queue named `q`. -/
inductive WaitEv where
  | threadFinish
  | queueTasks (qn : String)
  deriving DecidableEq, Repr

/-- `threads.Thread.join`: the stdlib join, then `dead(True)`. -/
def Thread.joinTrace : List WaitEv := [WaitEv.threadFinish]

/-- `operations.Producer.join`: `super().join(); self.destination.join()`. -/
def Producer.joinTrace (dest : Queue α σ) : List WaitEv :=
  Thread.joinTrace ++ [WaitEv.queueTasks dest.qname]

/-- `operations.Operation.join` (inherited by Pipeline and Process):
`super().join(); self.destination.join()`. -/
def Operation.joinTrace (dest : Queue α σ) : List WaitEv :=
  Thread.joinTrace ++ [WaitEv.queueTasks dest.qname]

/-- The release condition of the stdlib `queue.Queue.join`: it returns
exactly when `unfinished_tasks` has reached zero. -/
def Queue.joinRelease (q : Queue α σ) : Prop := q.unfinished = 0

/-- The four outcome event classes of src/queue.py:
`Abandon`, `Success`, `Failure`, `Error`. -/
inductive Ev where
  | abandonEv
  | successEv
  | failureEv
  | errorEv
  deriving DecidableEq, Repr

/-- A Python value appearing in the Task outcome machinery: one of the
four event classes, the boolean `False`, or `None` would be `Option.none`
at the use sites. -/
inductive PyVal where
  | ev (e : Ev)
  | bFalse
  deriving DecidableEq, Repr

/-- `Task.__defaults`: `dict(abandon=Abandon, success=Success,
failure=False, error=Error)` — note the value under the key `failure`
is the boolean `False`, not the `Failure` event class. -/
def Task.defaults (k : String) : Option PyVal :=
  if k = "abandon" then some (PyVal.ev Ev.abandonEv)
  else if k = "success" then some (PyVal.ev Ev.successEv)
  else if k = "failure" then some PyVal.bFalse
  else if k = "error" then some (PyVal.ev Ev.errorEv)
  else none

/-- The effect of `Task.__exit__` on the outside world: it publishes a
value, publishes nothing, or one of its `assert` statements fails. -/
inductive ExitEffect where
  | published (v : PyVal)
  | noPublish
  | assertFail
  deriving DecidableEq, Repr

/-- `Task.__exit__(error_type, ...)` as a function of whether an exception
escaped the scope (`raised`), the current `self.result` and the current
`self.default` (both `None`-able):
raised and no result — publish `Error`; raised with a result — assert the
result is `Error`; clean exit and no result — assert a default was
declared and publish it; clean exit with a result — assert the result is
not `Error`. -/
def Task.exitRun (raised : Bool) (result dflt : Option PyVal) : ExitEffect :=
  if raised then
    match result with
    | none => ExitEffect.published (PyVal.ev Ev.errorEv)
    | some r => if r = PyVal.ev Ev.errorEv then ExitEffect.noPublish
                else ExitEffect.assertFail
  else
    match result with
    | none =>
        match dflt with
        | none => ExitEffect.assertFail
        | some d => ExitEffect.published d
    | some r => if r = PyVal.ev Ev.errorEv then ExitEffect.assertFail
                else ExitEffect.noPublish

/-- `queue.Stack` state: the three internal `Queue` FIFOs built by
`__init__` — agenda, success, failure — with tasks identified by `Nat`.
The front of each list is the next item out of that FIFO. -/
structure StackState where
  agenda : List Nat
  successQ : List Nat
  failureQ : List Nat
  deriving DecidableEq, Repr

/-- `Stack.scheduler(taskitems)`: under the mutex, register the stack on
each task (subscription, handled by `Stack.dispatch`) and `put` each task
on the agenda in order. -/
def StackState.scheduler (st : StackState) (ts : List Nat) : StackState :=
  { st with agenda := st.agenda ++ ts }

/-- `Stack.abandon(taskitem)`: `self.__agenda.put(taskitem)`. -/
def StackState.abandonH (st : StackState) (t : Nat) : StackState :=
  { st with agenda := st.agenda ++ [t] }

/-- `Stack.success(taskitem)`: `self.__success.put(taskitem)`. -/
def StackState.successH (st : StackState) (t : Nat) : StackState :=
  { st with successQ := st.successQ ++ [t] }

/-- `Stack.failure(taskitem)`: `self.__failure.put(taskitem)`. -/
def StackState.failureH (st : StackState) (t : Nat) : StackState :=
  { st with failureQ := st.failureQ ++ [t] }

/-- The attribute names written on a `Stack` instance by `__init__`
(name-mangled): there is no `_Stack__abandon`. -/
def stackAttrNames : List String :=
  ["_Stack__name", "_Stack__agenda", "_Stack__success",
   "_Stack__failure", "_Stack__file", "_Stack__mutex"]

/-- `Stack.error(taskitem)`: `self.__abandon.put(taskitem)`.  The
name-mangled attribute `_Stack__abandon` was never assigned, so the
lookup raises AttributeError; no queue receives the task. -/
def StackState.errorH (st : StackState) (t : Nat) : Except PyErr StackState :=
  if stackAttrNames.contains "_Stack__abandon" then
    .ok { st with agenda := st.agenda ++ [t] }
  else .error (.attributeError "_Stack__abandon")

/-- The Subscriber event table built in `Stack.__init__`:
`events={Success: self.success, Failure: self.failure,
Abandon: self.abandon}` — no entry for `Error`. -/
def Stack.eventHandler : Ev → Option (StackState → Nat → StackState)
  | Ev.successEv => some StackState.successH
  | Ev.failureEv => some StackState.failureH
  | Ev.abandonEv => some StackState.abandonH
  | Ev.errorEv => none

/-- Modelled from the spec: the `utilities.observer` publish/subscribe
dispatch (the observer module is not part of src/).  Publishing an event
for a task delivers it to each subscribed stack by invoking that stack's
handler registered for the event; an event without a handler entry is
ignored for this subscriber. -/
def StackState.dispatch (st : StackState) (e : Ev) (t : Nat) : StackState :=
  match Stack.eventHandler e with
  | some h => h st t
  | none => st

/-- `Stack.checkout`: raise StopIteration when the agenda is empty
(`not bool(self)`), else pop the front agenda task. -/
def StackState.checkout (st : StackState) : Option (Nat × StackState) :=
  match st.agenda with
  | [] => none
  | t :: rest => some (t, { st with agenda := rest })

/-- Check out one task and drop it (the worker holds it outside the
stack while executing it). -/
def StackState.checkoutDrop (st : StackState) : StackState :=
  match st.checkout with
  | none => st
  | some (_, st2) => st2

/-- `Stack.__len__`: the length of the agenda. -/
def StackState.lenS (st : StackState) : Nat := st.agenda.length

/-! ### Helper lemmas -/

/-- On every queue state, `Queue.get` raises AttributeError for the
missing `timeout` attribute. -/
theorem queue_get_attr (q : Queue α σ) :
    q.get = Except.error (PyErr.attributeError "timeout") := rfl

/-- A trace made only of puts holds no Closed marking. -/
theorem closeMarks_map_put (l : List β) :
    closeMarks (l.map DestOp.put) = 0 := by
  induction l with
  | nil => rfl
  | cons a rest ih => simpa [closeMarks] using ih

/-- `closeMarks` is additive over concatenation. -/
theorem closeMarks_append (l₁ l₂ : List (DestOp β)) :
    closeMarks (l₁ ++ l₂) = closeMarks l₁ + closeMarks l₂ := by
  induction l₁ with
  | nil => simp [closeMarks]
  | cons a rest ih =>
      cases a with
      | put b => simp [closeMarks, ih]
      | closeMark => simp [closeMarks, ih]; omega

/-- The Pipeline loop never adds a Closed marking to the trace. -/
theorem pipeline_go_closeMarks (live : σ → Bool) (execute : Option α → GenRun β)
    (fuel : Nat) (src : Queue α σ) (acc : List (DestOp β)) :
    closeMarks (Pipeline.processGo live execute fuel src acc).1 = closeMarks acc := by
  cases fuel with
  | zero => rfl
  | succ n =>
      rw [Pipeline.processGo, queue_get_attr]
      by_cases h : src.toBool live = true
      · simp [h]
      · simp [h]

/-! ### Claim theorems -/

/-- C2: a Queue's truth value equals (internal FIFO non-empty) OR (some
registered source is live); with zero registered sources it is exactly
non-emptiness, and with a live registered source it is true even when the
FIFO is empty. -/
theorem queue_bool_liveness (σ : Type) (live : σ → Bool) (q : Queue Nat σ) :
    (q.toBool live = true ↔ (q.fifo ≠ [] ∨ ∃ s, s ∈ q.qsources ∧ live s = true))
    ∧ (q.qsources = [] → q.toBool live = !q.fifo.isEmpty)
    ∧ (q.fifo = [] → ∀ s, s ∈ q.qsources → live s = true → q.toBool live = true) := by
  refine ⟨?_, ?_, ?_⟩
  · simp [Queue.toBool, List.any_eq_true, List.isEmpty_iff]
  · intro h
    simp [Queue.toBool, h]
  · intro hf s hs hl
    have hany : q.qsources.any live = true := List.any_eq_true.mpr ⟨s, hs, hl⟩
    simp [Queue.toBool, hf, hany]

/-- Witness for C2 at a concrete state: an empty FIFO with one live
registered source is live. -/
theorem queue_bool_liveness_witness :
    (({ qname := "Q", qtimeout := 60, fifo := [], qsources := [true],
        unfinished := 0 } : Queue Nat Bool).fifo = [])
    ∧ ({ qname := "Q", qtimeout := 60, fifo := [], qsources := [true],
         unfinished := 0 } : Queue Nat Bool).toBool (fun b => b) = true :=
  ⟨rfl, (queue_bool_liveness Bool (fun b => b) _).2.2 rfl true (by decide) rfl⟩

/-- C4: `Queue.get` never returns an item and never signals the retryable
Empty condition; on every queue state it raises AttributeError, because
the method evaluates the nonexistent attribute `self.timeout`. -/
theorem queue_get_raises_attribute_error (q : Queue Nat Bool) :
    q.get = Except.error (PyErr.attributeError "timeout")
    ∧ queueAttrNames.contains "timeout" = false := ⟨rfl, rfl⟩

/-- C5: `Queue.register`/`Queue.unregister` raise AttributeError on every
input, because `__init__` stores the sources in a Python list while the
methods call the set methods `add`/`discard` on it; no source is ever
added to or removed from the registered sources. -/
theorem queue_register_unregister_raise (q : Queue Nat Bool) (s : Bool) :
    q.register s = Except.error (PyErr.attributeError "add")
    ∧ q.unregister s = Except.error (PyErr.attributeError "discard")
    ∧ pyListMethods.contains "add" = false
    ∧ pyListMethods.contains "discard" = false :=
  ⟨rfl, rfl, rfl, rfl⟩

/-- C6: for a Status view and its divergent view on the same switch,
exactly one of the two booleans is true in every switch state; setting
either view through its call operation makes that view read the written
value and the other view read its negation; a convergent view always
agrees with the original. -/
theorem status_divergent_complement (a : Status) (n : String) (sw : Switch)
    (v : Bool) :
    ((a.toBool sw = true) ↔ ¬((a.divergent n).toBool sw = true))
    ∧ (a.divergent n).toBool (a.call v sw) = !(a.toBool (a.call v sw))
    ∧ a.toBool (a.call v sw) = v
    ∧ (a.divergent n).toBool (a.call v sw) = !v
    ∧ (a.divergent n).toBool ((a.divergent n).call v sw) = v
    ∧ a.toBool ((a.divergent n).call v sw) = !v
    ∧ (a.convergent n).toBool sw = a.toBool sw := by
  obtain ⟨nm, p⟩ := a
  obtain ⟨st, onE, offE⟩ := sw
  cases p <;> cases st <;> cases v <;>
    simp [Status.toBool, Status.call, Status.divergent, Status.convergent,
      Switch.set]

/-- C1 counterexample: a Producer whose execute yields one item and then
raises performs exactly one destination operation — the put of the item —
and zero Closed markings, so the destination's Closed status is not
marked exactly once (it is never marked at all). -/
theorem producer_raise_marks_no_close :
    (Producer.processTrace (⟨[1], some (Exc.mk "Boom")⟩ : GenRun Nat)).1
      = [DestOp.put 1]
    ∧ closeMarks (Producer.processTrace
        (⟨[1], some (Exc.mk "Boom")⟩ : GenRun Nat)).1 = 0
    ∧ ¬ closeMarks (Producer.processTrace
        (⟨[1], some (Exc.mk "Boom")⟩ : GenRun Nat)).1 = 1 := by
  refine ⟨rfl, rfl, ?_⟩
  decide

/-- C1 amended: Producer.process and Pipeline.process perform no Closed
marking at all — the destination has no Closed status in this variant;
instead, on sequence exhaustion and on an escaping exception alike, the
Thread layer's run captures the exception (on failure or on error) and
marks the thread idle, so termination is signalled through the stage's
own liveness rather than a destination Closed mark. -/
theorem producer_pipeline_no_close_thread_captures (g : GenRun Nat)
    (fs : List String) :
    closeMarks (Producer.processTrace g).1 = 0
    ∧ (∀ (fuel : Nat) (src : Queue Nat Bool) (live : Bool → Bool)
         (execute : Option Nat → GenRun Nat),
         closeMarks (Pipeline.processTrace live execute fuel src).1 = 0)
    ∧ idleStatus.toBool
        ((ThreadState.fresh fs).run (Producer.processOutcome g)).runSwitch = true
    ∧ (∀ e, g.fate = some e →
        ((ThreadState.fresh fs).run (Producer.processOutcome g)).failureCaptured
            = some e
        ∨ ((ThreadState.fresh fs).run (Producer.processOutcome g)).errorCaptured
            = some e) := by
  refine ⟨closeMarks_map_put g.yielded, ?_, ?_, ?_⟩
  · intro fuel src live execute
    exact pipeline_go_closeMarks live execute fuel src []
  · obtain ⟨ys, fate⟩ := g
    cases fate with
    | none => rfl
    | some e =>
        show idleStatus.toBool
          ((ThreadState.fresh fs).run (Outcome.raised e)).runSwitch = true
        rw [ThreadState.run]
        by_cases h : recognizedExc fs e = true
        · simp [h, ThreadState.fresh, idleStatus, runningStatus,
            Status.divergent, Status.call, Status.toBool, Switch.set]
        · simp [h, ThreadState.fresh, idleStatus, runningStatus,
            Status.divergent, Status.call, Status.toBool, Switch.set]
  · intro e he
    obtain ⟨ys, fate⟩ := g
    cases he
    show (((ThreadState.fresh fs).run (Outcome.raised e)).failureCaptured = some e)
      ∨ (((ThreadState.fresh fs).run (Outcome.raised e)).errorCaptured = some e)
    rw [ThreadState.run]
    by_cases h : recognizedExc fs e = true
    · exact Or.inl (by simp [h, ThreadState.fresh])
    · exact Or.inr (by simp [h, ThreadState.fresh])

/-- Witness for C1 amended: the producer that yields one item then raises
an unrecognized exception leaves no Closed marking and the exception is
captured by the Thread layer. -/
theorem producer_pipeline_no_close_witness :
    ((⟨[1], some (Exc.mk "Boom")⟩ : GenRun Nat).fate = some (Exc.mk "Boom"))
    ∧ (((ThreadState.fresh []).run
          (Producer.processOutcome (⟨[1], some (Exc.mk "Boom")⟩ : GenRun Nat))).failureCaptured
            = some (Exc.mk "Boom")
       ∨ ((ThreadState.fresh []).run
          (Producer.processOutcome (⟨[1], some (Exc.mk "Boom")⟩ : GenRun Nat))).errorCaptured
            = some (Exc.mk "Boom")) :=
  ⟨rfl, (producer_pipeline_no_close_thread_captures
            (⟨[1], some (Exc.mk "Boom")⟩ : GenRun Nat) []).2.2.2
          (Exc.mk "Boom") rfl⟩

/-- C3: Thread.run terminates in exactly one of three ways — normal
return with neither capture slot set; a recognized failure captured on
the failure slot with the error slot unset; any other exception captured
on the error slot with the failure slot unset — and in every case run
returns (it is a total function) and the Idle status reads true. -/
theorem thread_run_trichotomy (fs : List String) (proc : Outcome) :
    (proc = Outcome.normal →
      ((ThreadState.fresh fs).run proc).failureCaptured = none
      ∧ ((ThreadState.fresh fs).run proc).errorCaptured = none)
    ∧ (∀ e, proc = Outcome.raised e → recognizedExc fs e = true →
      ((ThreadState.fresh fs).run proc).failureCaptured = some e
      ∧ ((ThreadState.fresh fs).run proc).errorCaptured = none)
    ∧ (∀ e, proc = Outcome.raised e → recognizedExc fs e = false →
      ((ThreadState.fresh fs).run proc).errorCaptured = some e
      ∧ ((ThreadState.fresh fs).run proc).failureCaptured = none)
    ∧ idleStatus.toBool ((ThreadState.fresh fs).run proc).runSwitch = true := by
  refine ⟨?_, ?_, ?_, ?_⟩
  · intro h
    cases h
    exact ⟨rfl, rfl⟩
  · intro e he hr
    cases he
    rw [ThreadState.run]
    simp [hr, ThreadState.fresh]
  · intro e he hr
    cases he
    rw [ThreadState.run]
    simp [hr, ThreadState.fresh]
  · cases proc with
    | normal => rfl
    | raised e =>
        rw [ThreadState.run]
        by_cases h : recognizedExc fs e = true
        · simp [h, ThreadState.fresh, idleStatus, runningStatus,
            Status.divergent, Status.call, Status.toBool, Switch.set]
        · simp [h, ThreadState.fresh, idleStatus, runningStatus,
            Status.divergent, Status.call, Status.toBool, Switch.set]

/-- Witness for C3: a thread recognizing the kind Boom captures a raised
Boom on the failure slot and leaves the error slot unset. -/
theorem thread_run_trichotomy_witness :
    recognizedExc ["Boom"] (Exc.mk "Boom") = true
    ∧ ((ThreadState.fresh ["Boom"]).run
        (Outcome.raised (Exc.mk "Boom"))).failureCaptured = some (Exc.mk "Boom")
    ∧ ((ThreadState.fresh ["Boom"]).run
        (Outcome.raised (Exc.mk "Boom"))).errorCaptured = none :=
  ⟨by decide,
   ((thread_run_trichotomy ["Boom"] (Outcome.raised (Exc.mk "Boom"))).2.1
      (Exc.mk "Boom") rfl (by decide)).1,
   ((thread_run_trichotomy ["Boom"] (Outcome.raised (Exc.mk "Boom"))).2.1
      (Exc.mk "Boom") rfl (by decide)).2⟩

/-- C7 counterexample: scheduling T1,T2,T3 (as 1,2,3) and then publishing
Success(1), Failure(2), Abandon(3) — the literal event sequence of the
claim — leaves the scheduled tasks on the agenda: the agenda ends as
[1,2,3,3] with length 4, not [3] with length 1 (publication routes into
the queues but removes nothing from the agenda). -/
theorem stack_scenario_literal_fails :
    (((((⟨[], [], []⟩ : StackState).scheduler [1, 2, 3]).dispatch
        Ev.successEv 1).dispatch Ev.failureEv 2).dispatch Ev.abandonEv 3).successQ
      = [1]
    ∧ (((((⟨[], [], []⟩ : StackState).scheduler [1, 2, 3]).dispatch
        Ev.successEv 1).dispatch Ev.failureEv 2).dispatch Ev.abandonEv 3).failureQ
      = [2]
    ∧ (((((⟨[], [], []⟩ : StackState).scheduler [1, 2, 3]).dispatch
        Ev.successEv 1).dispatch Ev.failureEv 2).dispatch Ev.abandonEv 3).agenda
      = [1, 2, 3, 3]
    ∧ ¬ (((((⟨[], [], []⟩ : StackState).scheduler [1, 2, 3]).dispatch
        Ev.successEv 1).dispatch Ev.failureEv 2).dispatch Ev.abandonEv 3).lenS
      = 1 := by decide

/-- C7 amended: after scheduling 1,2,3, checking all three out, and then
publishing Success(1), Failure(2), Abandon(3), the success queue holds
exactly 1, the failure queue exactly 2, the agenda exactly 3, and the
stack length is 1. -/
theorem stack_scenario_after_checkout :
    (((((⟨[], [], []⟩ : StackState).scheduler
          [1, 2, 3]).checkoutDrop.checkoutDrop.checkoutDrop.dispatch
        Ev.successEv 1).dispatch Ev.failureEv 2).dispatch Ev.abandonEv 3).successQ
      = [1]
    ∧ (((((⟨[], [], []⟩ : StackState).scheduler
          [1, 2, 3]).checkoutDrop.checkoutDrop.checkoutDrop.dispatch
        Ev.successEv 1).dispatch Ev.failureEv 2).dispatch Ev.abandonEv 3).failureQ
      = [2]
    ∧ (((((⟨[], [], []⟩ : StackState).scheduler
          [1, 2, 3]).checkoutDrop.checkoutDrop.checkoutDrop.dispatch
        Ev.successEv 1).dispatch Ev.failureEv 2).dispatch Ev.abandonEv 3).agenda
      = [3]
    ∧ (((((⟨[], [], []⟩ : StackState).scheduler
          [1, 2, 3]).checkoutDrop.checkoutDrop.checkoutDrop.dispatch
        Ev.successEv 1).dispatch Ev.failureEv 2).dispatch Ev.abandonEv 3).lenS
      = 1 := by decide

/-- C8: the Task default table maps the key failure to the boolean False
instead of the Failure event, so a task declared with the failure default
publishes False on a clean scope exit — not the Failure outcome — while
an exception escaping the scope with no outcome set does publish Error. -/
theorem task_default_failure_publishes_false :
    Task.defaults "failure" = some PyVal.bFalse
    ∧ Task.exitRun false none (Task.defaults "failure")
        = ExitEffect.published PyVal.bFalse
    ∧ ¬ PyVal.bFalse = PyVal.ev Ev.failureEv
    ∧ Task.exitRun true none none = ExitEffect.published (PyVal.ev Ev.errorEv)
    ∧ Task.exitRun false none (Task.defaults "abandon")
        = ExitEffect.published (PyVal.ev Ev.abandonEv)
    ∧ Task.exitRun false none (Task.defaults "success")
        = ExitEffect.published (PyVal.ev Ev.successEv)
    ∧ Task.exitRun false none (Task.defaults "error")
        = ExitEffect.published (PyVal.ev Ev.errorEv) := by
  refine ⟨rfl, rfl, ?_, rfl, rfl, rfl, rfl⟩
  decide

/-- C9 counterexample: a destination queue with an empty FIFO, zero
unfinished tasks and one still-live registered source.  The stdlib
queue join that Producer.join performs on the destination is already
released at this state, while the destination's liveness predicate is
still true — so joining does not block until the liveness predicate
becomes false. -/
theorem producer_join_release_while_live :
    ({ qname := "destination", qtimeout := 60, fifo := [], qsources := [true],
       unfinished := 0 } : Queue Nat Bool).joinRelease
    ∧ ({ qname := "destination", qtimeout := 60, fifo := [], qsources := [true],
         unfinished := 0 } : Queue Nat Bool).toBool (fun b => b) = true
    ∧ ({ qname := "destination", qtimeout := 60, fifo := [], qsources := [true],
         unfinished := 0 } : Queue Nat Bool).fifo = [] :=
  ⟨rfl, rfl, rfl⟩

/-- C9 amended: join first waits for the stage's own execution
(threading join), then for the destination queue's unfinished-task count
to reach zero (the stdlib queue join) — a condition on task accounting
that is independent of the registered sources and of the FIFO contents,
not the liveness predicate. -/
theorem producer_join_waits_task_count (dest : Queue Nat Bool) :
    Producer.joinTrace dest
      = [WaitEv.threadFinish, WaitEv.queueTasks dest.qname]
    ∧ Operation.joinTrace dest
      = [WaitEv.threadFinish, WaitEv.queueTasks dest.qname]
    ∧ (dest.joinRelease ↔ dest.unfinished = 0)
    ∧ (∀ (srcs : List Bool) (fifo2 : List Nat),
        ({ dest with qsources := srcs, fifo := fifo2 } : Queue Nat Bool).joinRelease
          ↔ dest.joinRelease) :=
  ⟨rfl, rfl, Iff.rfl, fun _ _ => Iff.rfl⟩

/-- C10: the Stack subscribes no handler for the Error event, so
publishing Error for a scheduled task changes none of the agenda,
success or failure queues; and the Stack's own error method references
the attribute _Stack__abandon, which __init__ never defines, so calling
it directly raises AttributeError instead of enqueuing the task. -/
theorem stack_error_unrouted :
    Stack.eventHandler Ev.errorEv = none
    ∧ (∀ (st : StackState) (t : Nat), st.dispatch Ev.errorEv t = st)
    ∧ (∀ (st : StackState) (t : Nat),
        st.errorH t = Except.error (PyErr.attributeError "_Stack__abandon"))
    ∧ stackAttrNames.contains "_Stack__abandon" = false :=
  ⟨rfl, fun _ _ => rfl, fun _ _ => rfl, rfl⟩

end Sync
